import Mathlib

/-!
Verification of the geoglyph image scraper's coordinate-projection and
raster-synthesis core, shallowly embedded from the Python sources
(`segmentationMaskGenerator.py`, `negativeGenerator.py`,
`v2gmapDownloader.py`).  Floating-point arithmetic is modelled over the
real numbers; Python exceptions are modelled by explicit error values or
by predicates describing the error conditions.
-/

namespace GeoScraper

open Real

/-! ## Projection (`segmentationMaskGenerator.py`, lines 23-45) -/

/-- `TILE_SIZE = 256` from `segmentationMaskGenerator.py`. -/
def TILE_SIZE : ℝ := 256

/-- Embedding of the inner helper `latlon_to_world` of
`latlon_to_pixel_offset`: `siny` is the sine of the latitude in radians,
clamped to `[-0.9999, 0.9999]`, then the Web-Mercator world coordinates
are produced. -/
noncomputable def latlon_to_world (lat lon : ℝ) : ℝ × ℝ :=
  let siny := min (max (Real.sin (lat * π / 180)) (-0.9999)) 0.9999
  (TILE_SIZE * (0.5 + lon / 360),
   TILE_SIZE * (0.5 - Real.log ((1 + siny) / (1 - siny)) / (4 * π)))

/-- Embedding of `latlon_to_pixel_offset(lat, lon, lat_center, lon_center,
zoom, image_size)`: world-coordinate difference scaled by `2^zoom * 256`,
shifted by half the image size. -/
noncomputable def latlon_to_pixel_offset (lat lon lat_center lon_center : ℝ)
    (zoom : ℕ) (image_size : ℝ × ℝ) : ℝ × ℝ :=
  let scale : ℝ := 2 ^ zoom
  let w := latlon_to_world lat lon
  let c := latlon_to_world lat_center lon_center
  let dx := (w.1 - c.1) * scale * 256
  let dy := (w.2 - c.2) * scale * 256
  (image_size.1 / 2 + dx, image_size.2 / 2 + dy)

/-- The condition under which the `math.log`/division step of
`latlon_to_world` would raise: zero denominator (ZeroDivisionError) or a
non-positive logarithm argument (math domain error). -/
noncomputable def world_domain_error (lat : ℝ) : Prop :=
  let siny := min (max (Real.sin (lat * π / 180)) (-0.9999)) 0.9999
  1 - siny = 0 ∨ (1 + siny) / (1 - siny) ≤ 0

/-! ## Tile addressing (`v2gmapDownloader.py`, `GoogleMapDownloader.getXY`) -/

/-- Embedding of `GoogleMapDownloader.getXY`.  `numTiles = 1 << zoom`;
`point_x` and `point_y` are computed in float arithmetic and `//` is
float floor division, so each coordinate is the floor of the real-valued
expression.  Note: `sin_y` is NOT clamped here, unlike `latlon_to_world`. -/
noncomputable def getXY (lat lng : ℝ) (zoom : ℕ) : ℤ × ℤ :=
  let tile_size : ℝ := 256
  let numTiles : ℝ := 2 ^ zoom
  let point_x := ⌊(tile_size / 2 + lng * tile_size / 360) * numTiles / tile_size⌋
  let sin_y := Real.sin (lat * (π / 180))
  let point_y := ⌊((tile_size / 2) +
      0.5 * Real.log ((1 + sin_y) / (1 - sin_y)) * -(tile_size / (2 * π))) *
      numTiles / tile_size⌋
  (point_x, point_y)

/-- The condition under which `getXY` raises: `(1 + sin_y) / (1 - sin_y)`
has a zero denominator (ZeroDivisionError) or is a non-positive argument
to `math.log` (math domain error). -/
noncomputable def getXY_domain_error (lat : ℝ) : Prop :=
  let sin_y := Real.sin (lat * (π / 180))
  1 - sin_y = 0 ∨ (1 + sin_y) / (1 - sin_y) ≤ 0

/-! ## Theorems: C1 -/

/-- C1: for every latitude/longitude within valid range and every zoom
and image size, `latlon_to_pixel_offset` applied to a point with itself
as the center returns exactly `(width / 2, height / 2)`: the center point
maps to the image's exact center pixel. -/
theorem C1_center_maps_to_image_center (lat lon : ℝ) (zoom : ℕ)
    (image_size : ℝ × ℝ)
    (hlat : -90 ≤ lat ∧ lat ≤ 90) (hlon : -180 ≤ lon ∧ lon ≤ 180) :
    latlon_to_pixel_offset lat lon lat lon zoom image_size =
      (image_size.1 / 2, image_size.2 / 2) := by
  simp [latlon_to_pixel_offset]

/-- Witness for C1 at `lat = 0`, `lon = 0`, `zoom = 20`, size `512×512`. -/
theorem C1_witness :
    latlon_to_pixel_offset 0 0 0 0 20 ((512 : ℝ), (512 : ℝ)) =
      ((512 : ℝ) / 2, (512 : ℝ) / 2) :=
  C1_center_maps_to_image_center 0 0 20 ((512 : ℝ), (512 : ℝ))
    (by norm_num) (by norm_num)

/-! ## Negative sampler (`negativeGenerator.py`) -/

/-- Embedding of `haversine_distance(lat1, lon1, lat2, lon2)`:
great-circle distance with Earth radius 6371 km; `math.radians x`
is `x * π / 180`. -/
noncomputable def haversine_distance (lat1 lon1 lat2 lon2 : ℝ) : ℝ :=
  let earthR : ℝ := 6371
  let dlat := (lat2 - lat1) * π / 180
  let dlon := (lon2 - lon1) * π / 180
  let a := Real.sin (dlat / 2) ^ 2 +
    Real.cos (lat1 * π / 180) * Real.cos (lat2 * π / 180) * Real.sin (dlon / 2) ^ 2
  2 * earthR * Real.arcsin (Real.sqrt a)

/-- The `too_close` test of `generate_negative_coordinates`: the drawn
candidate is strictly closer than `DISTANCE_THRESHOLD * 111` km to some
known positive point. -/
def too_close (lat lon : ℝ) (existing_points : List (ℝ × ℝ)) (threshold : ℝ) : Prop :=
  ∃ p ∈ existing_points,
    haversine_distance lat lon p.1 p.2 < threshold * 111

open Classical in
/-- Embedding of the `while True` rejection-sampling loop inside
`generate_negative_coordinates`: the stream of random draws is made an
explicit list, and the loop returns the first draw that is not
`too_close` to any existing point (`none` if the stream is exhausted,
modelling non-termination of the unbounded loop). -/
noncomputable def generate_negative_candidate (existing_points : List (ℝ × ℝ))
    (threshold : ℝ) : List (ℝ × ℝ) → Option (ℝ × ℝ)
  | [] => none
  | c :: rest =>
      if too_close c.1 c.2 existing_points threshold then
        generate_negative_candidate existing_points threshold rest
      else some c

lemma haversine_nonneg (lat1 lon1 lat2 lon2 : ℝ) :
    0 ≤ haversine_distance lat1 lon1 lat2 lon2 := by
  have h : 0 ≤ Real.arcsin (Real.sqrt (Real.sin (((lat2 - lat1) * π / 180) / 2) ^ 2 +
      Real.cos (lat1 * π / 180) * Real.cos (lat2 * π / 180) *
        Real.sin (((lon2 - lon1) * π / 180) / 2) ^ 2)) :=
    Real.arcsin_nonneg.mpr (Real.sqrt_nonneg _)
  simp only [haversine_distance]
  linarith

lemma not_too_close_iff (lat lon : ℝ) (existing_points : List (ℝ × ℝ))
    (threshold : ℝ) :
    ¬ too_close lat lon existing_points threshold ↔
      ∀ p ∈ existing_points,
        threshold * 111 ≤ haversine_distance lat lon p.1 p.2 := by
  simp [too_close, not_lt]

/-! ## Tile stitcher (`v2gmapDownloader.py`, `GoogleMapDownloader.generateImage`) -/

/-- Embedding of Python `range(a, b)` over the integers. -/
def pythonRange (a b : ℤ) : List ℤ :=
  (List.range (b - a).toNat).map (fun k : ℕ => a + (k : ℤ))

/-- Output raster dimensions of `generateImage` together with, in loop
order, each requested tile coordinate paired with the pixel position it
is pasted at. -/
structure StitchPlan where
  width : ℤ
  height : ℤ
  tiles : List ((ℤ × ℤ) × (ℤ × ℤ))

/-- The static plan of `generateImage`: `width, height = 256 * tile_width,
256 * tile_height`; the double loop runs `x` over
`range(-tile_width // 2, tile_width // 2)` and `y` over
`range(-tile_height // 2, tile_height // 2)`, requests tile
`(start_x + x, start_y + y)` and pastes it at
`((x + tile_width // 2) * 256, (y + tile_height // 2) * 256)`.  Python
`//` with the positive divisor 2 is floor division, which agrees with
`ℤ` division here. -/
def generateImagePlan (start_x start_y tile_width tile_height : ℤ) : StitchPlan :=
  { width := 256 * tile_width
    height := 256 * tile_height
    tiles := (pythonRange ((-tile_width) / 2) (tile_width / 2)).flatMap (fun x =>
      (pythonRange ((-tile_height) / 2) (tile_height / 2)).map (fun y =>
        ((start_x + x, start_y + y),
         ((x + tile_width / 2) * 256, (y + tile_height / 2) * 256)))) }

/-- `generateImage` with no explicit `start_x`/`start_y` keyword argument:
the center tile coordinate comes from `getXY`. -/
noncomputable def generateImagePlanCenter (lat lng : ℝ) (zoom : ℕ)
    (tile_width tile_height : ℤ) : StitchPlan :=
  generateImagePlan (getXY lat lng zoom).1 (getXY lat lng zoom).2
    tile_width tile_height

/-- Per-tile outcome of the fetch-write-decode sequence in the body of
`generateImage`'s double loop: `fetchFail` models `requests.get` raising
before the temporary tile file is written; `decodeFail` models
`Image.open` raising after the file was written. -/
inductive TileOutcome
  | ok
  | fetchFail
  | decodeFail
deriving DecidableEq

/-- On-disk and in-raster state threaded through the stitching loop:
the per-tile temporary files currently existing, and the tiles pasted
into the in-memory raster so far. -/
structure StitchState where
  tempFiles : List (ℤ × ℤ)
  pasted : List (ℤ × ℤ)
deriving DecidableEq

/-- Embedding of the double loop of `generateImage` over a flattened list
of tile offsets: each iteration writes the tile's temporary file, decodes
it, pastes it and removes the file; an exception aborts the whole loop (no
image is returned), and — because there is no `try`/`finally` — skips the
`os.remove` of the current tile's file. -/
def runStitch (outcome : ℤ × ℤ → TileOutcome) :
    List (ℤ × ℤ) → StitchState → (Except (ℤ × ℤ) Unit) × StitchState
  | [], st => (Except.ok (), st)
  | t :: rest, st =>
    match outcome t with
    | .fetchFail => (Except.error t, st)
    | .decodeFail => (Except.error t, { st with tempFiles := st.tempFiles ++ [t] })
    | .ok =>
        runStitch outcome rest
          { tempFiles := (st.tempFiles ++ [t]).erase t
            pasted := st.pasted ++ [t] }

lemma mem_pythonRange {a b x : ℤ} : x ∈ pythonRange a b ↔ a ≤ x ∧ x < b := by
  simp only [pythonRange, List.mem_map, List.mem_range]
  constructor
  · rintro ⟨k, hk, rfl⟩
    omega
  · intro h
    exact ⟨(x - a).toNat, by omega, by omega⟩

lemma runStitch_error (outcome : ℤ × ℤ → TileOutcome) :
    ∀ (tiles : List (ℤ × ℤ)) (st0 st : StitchState) (t : ℤ × ℤ),
      st0.tempFiles = [] →
      runStitch outcome tiles st0 = (Except.error t, st) →
      outcome t ≠ TileOutcome.ok ∧
        st.tempFiles =
          (if outcome t = TileOutcome.decodeFail then [t] else []) := by
  intro tiles
  induction tiles with
  | nil =>
    intro st0 st t h0 h
    simp [runStitch] at h
  | cons u rest ih =>
    intro st0 st t h0 h
    rw [runStitch] at h
    split at h
    next hu =>
      rw [Prod.mk.injEq] at h
      obtain ⟨h1, h2⟩ := h
      obtain rfl : u = t := by simpa using h1
      subst h2
      rw [hu]
      simp [h0]
    next hu =>
      rw [Prod.mk.injEq] at h
      obtain ⟨h1, h2⟩ := h
      obtain rfl : u = t := by simpa using h1
      subst h2
      rw [hu]
      simp [h0]
    next hu =>
      refine ih _ st t ?_ h
      simp [h0]

/-! ## Theorems: C3 -/

/-- C3 counterexample: a single tile whose payload fails to decode.  The
stitch fails (error, no image returned) — but the temporary file written
for that tile is still on disk when the exception propagates, because
`os.remove` is only reached after a successful `Image.open` and there is
no `try`/`finally`. -/
theorem C3_counterexample_temp_file_left :
    runStitch (fun _ => TileOutcome.decodeFail) [((0 : ℤ), (0 : ℤ))]
        (StitchState.mk [] []) =
      (Except.error ((0 : ℤ), (0 : ℤ)),
        StitchState.mk [((0 : ℤ), (0 : ℤ))] []) ∧
    (StitchState.mk [((0 : ℤ), (0 : ℤ))] []).tempFiles ≠ [] := by
  exact ⟨rfl, by simp⟩

/-- C3 (amended): when any individual tile fetch or decode fails, the
whole stitch fails (an error is propagated, no partially-stitched image
is returned) and the temporary files of all previously completed tiles
have been deleted; but the failing tile's own temporary file remains on
disk exactly when the failure happened at the decode step, after the
file was written. -/
theorem C3_stitch_failure_cleanup (outcome : ℤ × ℤ → TileOutcome)
    (tiles : List (ℤ × ℤ)) (t : ℤ × ℤ) (st : StitchState)
    (h : runStitch outcome tiles (StitchState.mk [] []) = (Except.error t, st)) :
    outcome t ≠ TileOutcome.ok ∧
      st.tempFiles = (if outcome t = TileOutcome.decodeFail then [t] else []) :=
  runStitch_error outcome tiles (StitchState.mk [] []) st t rfl h

/-- Witness for C3's amended theorem: one tile, failing at the decode
step; its temporary file is the single leftover. -/
theorem C3_witness :
    TileOutcome.decodeFail ≠ TileOutcome.ok ∧
      (StitchState.mk [((0 : ℤ), (0 : ℤ))] []).tempFiles =
        (if TileOutcome.decodeFail = TileOutcome.decodeFail
          then [((0 : ℤ), (0 : ℤ))] else []) :=
  C3_stitch_failure_cleanup (fun _ => TileOutcome.decodeFail)
    [((0 : ℤ), (0 : ℤ))] ((0 : ℤ), (0 : ℤ))
    (StitchState.mk [((0 : ℤ), (0 : ℤ))] []) rfl

/-! ## Theorems: C5 -/

/-- C5: for every center point, zoom and positive tile grid dimensions,
`generateImage`'s output raster is exactly
`(256 * tile_width, 256 * tile_height)`, and it requests precisely the
tiles `(centerX + i, centerY + j)` for `(i, j)` in
`[-tile_width // 2, tile_width // 2) × [-tile_height // 2, tile_height // 2)`
(Python floor division), pasting each at pixel
`((i + tile_width // 2) * 256, (j + tile_height // 2) * 256)`. -/
theorem C5_stitch_geometry (lat lng : ℝ) (zoom : ℕ)
    (tile_width tile_height : ℤ)
    (hw : 0 < tile_width) (hh : 0 < tile_height) :
    (generateImagePlanCenter lat lng zoom tile_width tile_height).width =
        256 * tile_width ∧
    (generateImagePlanCenter lat lng zoom tile_width tile_height).height =
        256 * tile_height ∧
    ∀ i j : ℤ,
      (((getXY lat lng zoom).1 + i, (getXY lat lng zoom).2 + j),
        ((i + tile_width / 2) * 256, (j + tile_height / 2) * 256)) ∈
          (generateImagePlanCenter lat lng zoom tile_width tile_height).tiles ↔
        ((-tile_width) / 2 ≤ i ∧ i < tile_width / 2 ∧
          (-tile_height) / 2 ≤ j ∧ j < tile_height / 2) := by
  refine ⟨rfl, rfl, ?_⟩
  intro i j
  simp only [generateImagePlanCenter, generateImagePlan, List.mem_flatMap,
    List.mem_map]
  constructor
  · rintro ⟨x, hx, y, hy, heq⟩
    rw [mem_pythonRange] at hx hy
    rw [Prod.mk.injEq, Prod.mk.injEq, Prod.mk.injEq] at heq
    obtain ⟨⟨hx1, hy1⟩, hx2, hy2⟩ := heq
    refine ⟨?_, ?_, ?_, ?_⟩ <;> omega
  · rintro ⟨h1, h2, h3, h4⟩
    exact ⟨i, mem_pythonRange.mpr ⟨h1, h2⟩, j, mem_pythonRange.mpr ⟨h3, h4⟩, rfl⟩

/-- Witness for C5 at center `(0, 0)`, zoom `0`, a `2×2` tile grid and
offset `(0, 0)`. -/
theorem C5_witness :
    (generateImagePlanCenter 0 0 0 2 2).width = 256 * 2 ∧
    ((((getXY 0 0 0).1 + 0, (getXY 0 0 0).2 + 0),
        (((0 : ℤ) + 2 / 2) * 256, ((0 : ℤ) + 2 / 2) * 256)) ∈
          (generateImagePlanCenter 0 0 0 2 2).tiles ↔
        ((-2 : ℤ) / 2 ≤ 0 ∧ (0 : ℤ) < 2 / 2 ∧
          (-2 : ℤ) / 2 ≤ 0 ∧ (0 : ℤ) < 2 / 2)) :=
  ⟨(C5_stitch_geometry 0 0 0 2 2 (by norm_num) (by norm_num)).1,
   (C5_stitch_geometry 0 0 0 2 2 (by norm_num) (by norm_num)).2.2 0 0⟩

/-! ## Theorems: C2 -/

/-- C2: every candidate accepted by the rejection loop of
`generate_negative_coordinates` is at haversine distance at least
`DISTANCE_THRESHOLD * 111` km from every known positive point, and
conversely any candidate at distance at least the threshold from every
known point — in particular one whose nearest distance is exactly the
threshold — passes the strict-`<` rejection test. -/
theorem C2_accepted_candidates_far (existing_points : List (ℝ × ℝ))
    (threshold : ℝ) (draws : List (ℝ × ℝ)) (c : ℝ × ℝ) :
    (generate_negative_candidate existing_points threshold draws = some c →
      ∀ p ∈ existing_points,
        threshold * 111 ≤ haversine_distance c.1 c.2 p.1 p.2) ∧
    (∀ cand : ℝ × ℝ,
      (∀ p ∈ existing_points,
        threshold * 111 ≤ haversine_distance cand.1 cand.2 p.1 p.2) →
      ¬ too_close cand.1 cand.2 existing_points threshold) := by
  constructor
  · induction draws with
    | nil => intro h; simp [generate_negative_candidate] at h
    | cons d rest ih =>
      intro h
      by_cases hd : too_close d.1 d.2 existing_points threshold
      · rw [generate_negative_candidate, if_pos hd] at h
        exact ih h
      · rw [generate_negative_candidate, if_neg hd] at h
        have hcd : d = c := by simpa using h
        subst hcd
        exact (not_too_close_iff _ _ _ _).mp hd
  · intro cand hfar
    exact (not_too_close_iff _ _ _ _).mpr hfar

/-- Witness for C2: with no existing points the trivially accepted first
draw is (vacuously) far from every known point. -/
theorem C2_witness :
    ∀ p ∈ ([] : List (ℝ × ℝ)),
      (1 : ℝ) * 111 ≤ haversine_distance 0 0 p.1 p.2 :=
  (C2_accepted_candidates_far [] 1 [((0 : ℝ), (0 : ℝ))] ((0 : ℝ), (0 : ℝ))).1
    (by rw [generate_negative_candidate, if_neg (by simp [too_close])])

/-! ## Theorems: C9 -/

/-- C9: with `DISTANCE_THRESHOLD = 0` the rejection-sampling loop accepts
the very first drawn candidate for every site, because a haversine
distance is never strictly less than `0 * 111 = 0`. -/
theorem C9_threshold_zero_accepts_first_draw (existing_points : List (ℝ × ℝ))
    (c : ℝ × ℝ) (rest : List (ℝ × ℝ)) :
    generate_negative_candidate existing_points 0 (c :: rest) = some c := by
  have h : ¬ too_close c.1 c.2 existing_points 0 := by
    simp only [too_close]
    rintro ⟨p, hp, hlt⟩
    have hnn := haversine_nonneg c.1 c.2 p.1 p.2
    rw [zero_mul] at hlt
    linarith
  rw [generate_negative_candidate, if_neg h]

/-! ## Batch negative-image download (`negativeGenerator.py`,
`download_negative_images`) -/

/-- Per-row outcome in `download_negative_images`: the download raises
(caught by the `except`, the loop continues), the image is judged
low-texture (the `try` body executes `continue`), or the image is saved. -/
inductive NegOutcome
  | downloadFail
  | lowTexture
  | texOk
deriving DecidableEq

/-- Result of a batch run: either the loop finishes (returning the list
of saved row indices) or an uncaught exception aborts it. -/
inductive RunResult
  | completed (saved : List ℕ)
  | crashed (msg : String) (saved : List ℕ)
deriving DecidableEq

/-- Embedding of `download_negative_images`, rows abstracted to (index,
outcome) pairs.  The `try`/`finally` block's `finally` executes
`gc.collect()`, but `negativeGenerator.py` never imports `gc`, so every
item that reaches the `finally` — every item whose download succeeded,
whether saved or skipped as low-texture — raises an uncaught `NameError`
that aborts the whole loop; `img.save` on the `texOk` path has already
run before the `finally`. -/
def download_negative_images (max_images : ℕ) :
    List (ℕ × NegOutcome) → ℕ → List ℕ → RunResult
  | [], _, saved => RunResult.completed saved
  | (i, o) :: rest, count, saved =>
    if max_images ≤ count then RunResult.completed saved
    else
      match o with
      | NegOutcome.downloadFail =>
          download_negative_images max_images rest count saved
      | NegOutcome.lowTexture =>
          RunResult.crashed ("NameError: name gc is not defined") saved
      | NegOutcome.texOk =>
          RunResult.crashed ("NameError: name gc is not defined") (saved ++ [i])

/-! ## Theorems: C6 -/

/-- C6 (code bug): the claim matches the evident intent (per-item
`try`/`except` and `try`/`finally` blocks), but `negativeGenerator.py`
never imports `gc`, so the first row whose download succeeds raises
`NameError` from the `finally` block and aborts the batch.  Evaluated at
the failing inputs: a single successfully-downloaded row crashes the run,
and a failed download is indeed caught and skipped — only for the next
successful row to crash it. -/
theorem C6_gc_name_error_aborts_batch :
    download_negative_images 1500 [(0, NegOutcome.texOk)] 0 [] =
      RunResult.crashed ("NameError: name gc is not defined") [0] ∧
    download_negative_images 1500
        [(0, NegOutcome.downloadFail), (1, NegOutcome.texOk)] 0 [] =
      RunResult.crashed ("NameError: name gc is not defined") [1] ∧
    download_negative_images 1500 [(0, NegOutcome.lowTexture)] 0 [] =
      RunResult.crashed ("NameError: name gc is not defined") [] :=
  ⟨rfl, rfl, rfl⟩

/-! ## Mask rasterizer and KML loader (`segmentationMaskGenerator.py`) -/

/-- Shapely geometry objects as dispatched on by
`draw_geometry_on_mask`: `isinstance(geom, LineString)`,
`isinstance(geom, Polygon)`, `geom.geom_type == "Point"`, anything else.
Vertex pairs are `(lon, lat)`, as in shapely coordinate sequences. -/
inductive ShapelyGeom
  | point (lon lat : ℝ)
  | lineString (coords : List (ℝ × ℝ))
  | polygon (exterior : List (ℝ × ℝ))
  | other (kindName : String)

/-- The PIL drawing primitives invoked by `draw_geometry_on_mask`,
recorded instead of performed. -/
inductive DrawCmd
  | line (pts : List (ℝ × ℝ)) (width : ℤ)
  | polygonFill (pts : List (ℝ × ℝ))
  | ellipse (x0 y0 x1 y1 : ℝ)

/-- Embedding of `draw_geometry_on_mask`: project every vertex through
`latlon_to_pixel_offset` and emit the PIL draw call; a geometry that is
neither a `LineString`, a `Polygon` nor a `Point` raises
`ValueError(f"Unsupported geometry type: ...")` naming the kind. -/
noncomputable def draw_geometry_on_mask (geom : ShapelyGeom)
    (center_lat center_lon : ℝ) (size : ℝ × ℝ) (zoom : ℕ) (pad_px : ℤ) :
    Except String (List DrawCmd) :=
  match geom with
  | ShapelyGeom.lineString coords =>
      Except.ok [DrawCmd.line (coords.map (fun c =>
        latlon_to_pixel_offset c.2 c.1 center_lat center_lon zoom size))
        (pad_px * 2)]
  | ShapelyGeom.polygon exterior =>
      Except.ok [DrawCmd.polygonFill (exterior.map (fun c =>
        latlon_to_pixel_offset c.2 c.1 center_lat center_lon zoom size))]
  | ShapelyGeom.point lon lat =>
      let p := latlon_to_pixel_offset lat lon center_lat center_lon zoom size
      let r : ℝ := (pad_px : ℝ) * 3
      Except.ok [DrawCmd.ellipse (p.1 - r) (p.2 - r) (p.1 + r) (p.2 + r)]
  | ShapelyGeom.other kindName =>
      Except.error (("Unsupported geometry type: ") ++ kindName)

/-- Gid extraction in `main`:
`name.split("#")[-1] if "#" in name else name`. -/
def gid_of_name (name : String) : String :=
  (name.splitOn ("#")).getLastD name

/-- Embedding of one iteration of `main`'s loop: look up the image for
the gid (log and skip when missing), take the projection center from the
point itself (or the centroid collaborator otherwise), draw the mask and
only then save it.  `Except.ok files` lists the mask files this iteration
writes; a drawing error propagates out of `main` with no file written for
this geometry. -/
noncomputable def main_step (image_index : String → Option String)
    (image_size : String → ℝ × ℝ) (centroid : ShapelyGeom → ℝ × ℝ)
    (zoom : ℕ) (pad_px : ℤ) (name : String) (geom : ShapelyGeom) :
    Except String (List String) :=
  let gid := gid_of_name name
  match image_index gid with
  | none => Except.ok []
  | some path =>
    let sz := image_size path
    let center :=
      match geom with
      | ShapelyGeom.point lon lat => (lon, lat)
      | g => centroid g
    match draw_geometry_on_mask geom center.2 center.1 sz zoom pad_px with
    | Except.error e => Except.error e
    | Except.ok _ => Except.ok [gid ++ ("_mask.png")]

/-- One KML placemark as consulted by `load_kml_geometries`: the text of
its `<name>` element and of its first `<coordinates>` element, when
present. -/
structure Placemark where
  name : Option String
  coordsText : Option String

/-- The tokenization in `load_kml_geometries`:
`coords_elem.text.strip()` then `.replace(",", " ").split()` — commas
become spaces, split on whitespace runs, no empty tokens. -/
def kml_tokens (t : String) : List String :=
  ((t.trim.replace (",") (" ")).split (fun c => c.isWhitespace)).filter
    (fun s => !s.isEmpty)

/-- Embedding of the per-placemark body of `load_kml_geometries`: skip
when the coordinates element or its text is missing or empty, when fewer
than two tokens remain, or when either of the first two tokens fails to
parse as a float (`parse_float` stands for the Python `float` builtin);
otherwise return `(name, Point(lon, lat))` built from the first two
tokens only — regardless of how many coordinates the element listed. -/
def parse_placemark (parse_float : String → Option ℝ) (pm : Placemark) :
    Option (String × ShapelyGeom) :=
  match pm.coordsText with
  | none => none
  | some t =>
    if t = "" then none
    else
      let name :=
        match pm.name with
        | some n => n.trim
        | none => "unnamed"
      let tokens := kml_tokens t
      if tokens.length < 2 then none
      else
        match parse_float (tokens.getD 0 ""), parse_float (tokens.getD 1 "") with
        | some lon, some lat => some (name, ShapelyGeom.point lon lat)
        | _, _ => none

/-- Embedding of `load_kml_geometries`: the successfully parsed
placemarks, in document order. -/
def load_kml_geometries (parse_float : String → Option ℝ)
    (placemarks : List Placemark) : List (String × ShapelyGeom) :=
  placemarks.filterMap (parse_placemark parse_float)

/-! ## Theorems: C4 -/

lemma sin_ninety_deg : Real.sin ((90 : ℝ) * (π / 180)) = 1 := by
  have h : (90 : ℝ) * (π / 180) = π / 2 := by ring
  rw [h, Real.sin_pi_div_two]

lemma sin_neg_ninety_deg : Real.sin ((-90 : ℝ) * (π / 180)) = -1 := by
  have h : ((-90 : ℝ)) * (π / 180) = -(π / 2) := by ring
  rw [h, Real.sin_neg, Real.sin_pi_div_two]

lemma getXY_domain_error_90 : getXY_domain_error 90 := by
  simp only [getXY_domain_error, sin_ninety_deg]
  left
  ring

lemma getXY_domain_error_neg90 : getXY_domain_error (-90) := by
  simp only [getXY_domain_error, sin_neg_ninety_deg]
  right
  norm_num

lemma world_no_domain_error (lat : ℝ) : ¬ world_domain_error lat := by
  intro h
  simp only [world_domain_error] at h
  have h1 : min (max (Real.sin (lat * π / 180)) (-0.9999)) 0.9999 ≤ 0.9999 :=
    min_le_right _ _
  have h2 : (-0.9999 : ℝ) ≤ min (max (Real.sin (lat * π / 180)) (-0.9999)) 0.9999 :=
    le_min (le_max_right _ _) (by norm_num)
  rcases h with h | h
  · linarith
  · have hnum : (0 : ℝ) < 1 + min (max (Real.sin (lat * π / 180)) (-0.9999)) 0.9999 := by
      linarith
    have hden : (0 : ℝ) < 1 - min (max (Real.sin (lat * π / 180)) (-0.9999)) 0.9999 := by
      linarith
    have := div_pos hnum hden
    linarith

/-- C4 counterexample: the claim fails on `getXY`.  At latitude exactly
`90.0` the unclamped `sin_y` equals `1`, so `(1 + sin_y) / (1 - sin_y)`
divides by zero: `getXY` hits a domain error at the pole. -/
theorem C4_counterexample_getXY_pole : getXY_domain_error 90 :=
  getXY_domain_error_90

/-- C4 (amended): `latlon_to_world` (used by `latlon_to_pixel_offset`)
clamps the sine to `[-0.9999, 0.9999]` before the logarithm, so no
latitude — in particular not ±90 — produces a domain error there; but
`getXY` does not clamp, and at latitude exactly `90.0` or `-90.0` its
log/division step hits a domain error. -/
theorem C4_clamp_only_in_world (lat : ℝ) :
    (¬ world_domain_error lat) ∧
      getXY_domain_error 90 ∧ getXY_domain_error (-90) :=
  ⟨world_no_domain_error lat, getXY_domain_error_90, getXY_domain_error_neg90⟩

/-- Witness for C4's amended theorem at latitude `90`. -/
theorem C4_witness :
    (¬ world_domain_error 90) ∧
      getXY_domain_error 90 ∧ getXY_domain_error (-90) :=
  C4_clamp_only_in_world 90

/-! ## Theorems: C8 -/

lemma getXY_fst (lat lng : ℝ) (zoom : ℕ) :
    (getXY lat lng zoom).1 =
      ⌊(256 / 2 + lng * 256 / 360) * ((2 : ℝ) ^ zoom) / 256⌋ := rfl

lemma getXY_snd (lat lng : ℝ) (zoom : ℕ) :
    (getXY lat lng zoom).2 =
      ⌊((256 / 2) + 0.5 * Real.log ((1 + Real.sin (lat * (π / 180))) /
          (1 - Real.sin (lat * (π / 180)))) * -(256 / (2 * π))) *
        ((2 : ℝ) ^ zoom) / 256⌋ := rfl

lemma getXY_x_mono (lat lng1 lng2 : ℝ) (zoom : ℕ) (h : lng1 ≤ lng2) :
    (getXY lat lng1 zoom).1 ≤ (getXY lat lng2 zoom).1 := by
  rw [getXY_fst, getXY_fst]
  apply Int.floor_le_floor
  gcongr

lemma getXY_y_anti (lng lat1 lat2 : ℝ) (zoom : ℕ)
    (h1 : -90 < lat1) (h12 : lat1 ≤ lat2) (h2 : lat2 < 90) :
    (getXY lat2 lng zoom).2 ≤ (getXY lat1 lng zoom).2 := by
  rw [getXY_snd, getXY_snd]
  apply Int.floor_le_floor
  have hpi : (0 : ℝ) < π := Real.pi_pos
  have hc : (0 : ℝ) < π / 180 := by positivity
  have hx1l : -(π / 2) < lat1 * (π / 180) := by nlinarith
  have hx2u : lat2 * (π / 180) < π / 2 := by nlinarith
  have hx12 : lat1 * (π / 180) ≤ lat2 * (π / 180) := by nlinarith
  have hs12 : Real.sin (lat1 * (π / 180)) ≤ Real.sin (lat2 * (π / 180)) :=
    Real.sin_le_sin_of_le_of_le_pi_div_two (le_of_lt hx1l) (le_of_lt hx2u) hx12
  have hs1gt : -1 < Real.sin (lat1 * (π / 180)) := by
    have hlt := Real.sin_lt_sin_of_lt_of_le_pi_div_two
      (le_refl (-(π / 2))) (le_of_lt (lt_of_le_of_lt hx12 hx2u)) hx1l
    rwa [Real.sin_neg, Real.sin_pi_div_two] at hlt
  have hs2lt : Real.sin (lat2 * (π / 180)) < 1 := by
    have hlt := Real.sin_lt_sin_of_lt_of_le_pi_div_two
      (le_of_lt (lt_of_lt_of_le hx1l hx12)) (le_refl (π / 2)) hx2u
    rwa [Real.sin_pi_div_two] at hlt
  set s1 := Real.sin (lat1 * (π / 180))
  set s2 := Real.sin (lat2 * (π / 180))
  have hd1 : (0 : ℝ) < 1 - s1 := by linarith
  have hd2 : (0 : ℝ) < 1 - s2 := by linarith
  have hn1 : (0 : ℝ) < 1 + s1 := by linarith
  have hn2 : (0 : ℝ) < 1 + s2 := by linarith
  have hq : (1 + s1) / (1 - s1) ≤ (1 + s2) / (1 - s2) := by
    rw [div_le_div_iff₀ hd1 hd2]
    nlinarith
  have hq1 : (0 : ℝ) < (1 + s1) / (1 - s1) := div_pos hn1 hd1
  have hq2 : (0 : ℝ) < (1 + s2) / (1 - s2) := div_pos hn2 hd2
  have hlog : Real.log ((1 + s1) / (1 - s1)) ≤ Real.log ((1 + s2) / (1 - s2)) :=
    (Real.log_le_log_iff hq1 hq2).mpr hq
  have hcpos : (0 : ℝ) < 256 / (2 * π) := by positivity
  have hmain : (256 / 2 + 0.5 * Real.log ((1 + s2) / (1 - s2)) * -(256 / (2 * π))) ≤
      (256 / 2 + 0.5 * Real.log ((1 + s1) / (1 - s1)) * -(256 / (2 * π))) := by
    nlinarith [mul_le_mul_of_nonneg_right hlog (le_of_lt hcpos)]
  have h2z : (0 : ℝ) ≤ (2 : ℝ) ^ zoom := by positivity
  have hscaled := mul_le_mul_of_nonneg_right hmain h2z
  have h256 : (0 : ℝ) < 256 := by norm_num
  exact (div_le_div_iff_of_pos_right h256).mpr hscaled

/-- C8: for fixed latitude and zoom, the tile `x` coordinate of `getXY`
is monotonically non-decreasing in longitude; for fixed longitude and
zoom, the tile `y` coordinate is monotonically non-increasing in latitude
on the open valid range `(-90, 90)` (in particular within one
hemisphere). -/
theorem C8_getXY_monotone :
    (∀ (lat lng1 lng2 : ℝ) (zoom : ℕ), lng1 ≤ lng2 →
      (getXY lat lng1 zoom).1 ≤ (getXY lat lng2 zoom).1) ∧
    (∀ (lng lat1 lat2 : ℝ) (zoom : ℕ),
      -90 < lat1 → lat1 ≤ lat2 → lat2 < 90 →
      (getXY lat2 lng zoom).2 ≤ (getXY lat1 lng zoom).2) :=
  ⟨getXY_x_mono, getXY_y_anti⟩

/-- Witness for C8 with the longitudes `0 ≤ 1` and the latitudes
`0 ≤ 10` at zoom `5`. -/
theorem C8_witness :
    (getXY 0 0 5).1 ≤ (getXY 0 1 5).1 ∧ (getXY 10 0 5).2 ≤ (getXY 0 0 5).2 :=
  ⟨C8_getXY_monotone.1 0 0 1 5 (by norm_num),
   C8_getXY_monotone.2 0 0 10 5 (by norm_num) (by norm_num) (by norm_num)⟩

/-! ## Theorems: C7 -/

/-- C7: a geometry that is none of `Point`, `LineString`, `Polygon` makes
`draw_geometry_on_mask` raise the `ValueError` naming that kind, and
`main`'s loop body writes no mask file for that geometry — the save runs
only after drawing succeeded, so the iteration either propagates the
error (image found) or skips (no image found), in both cases writing
nothing. -/
theorem C7_unsupported_geometry_no_file (kindName : String)
    (center_lat center_lon : ℝ) (size : ℝ × ℝ) (zoom : ℕ) (pad_px : ℤ)
    (image_index : String → Option String) (image_size : String → ℝ × ℝ)
    (centroid : ShapelyGeom → ℝ × ℝ) (name : String) :
    draw_geometry_on_mask (ShapelyGeom.other kindName) center_lat center_lon
        size zoom pad_px =
      Except.error (("Unsupported geometry type: ") ++ kindName) ∧
    (main_step image_index image_size centroid zoom pad_px name
        (ShapelyGeom.other kindName) =
          Except.error (("Unsupported geometry type: ") ++ kindName) ∨
      main_step image_index image_size centroid zoom pad_px name
        (ShapelyGeom.other kindName) = Except.ok []) := by
  refine ⟨rfl, ?_⟩
  simp only [main_step]
  cases h : image_index (gid_of_name name) with
  | none => right; rfl
  | some p => left; rfl

/-! ## Theorems: C10 -/

/-- C10: every geometry produced by `load_kml_geometries` is a `Point`
built from only the first two numeric tokens (longitude, latitude) of the
placemark's coordinates element — so the mask pipeline driven by this
loader always takes the `Point` drawing branch, never the `LineString` or
`Polygon` ones — and placemarks with missing or unparseable coordinates
are silently skipped. -/
theorem C10_loader_yields_only_points (parse_float : String → Option ℝ)
    (placemarks : List Placemark) :
    (∀ (pm : Placemark) (e : String × ShapelyGeom),
      parse_placemark parse_float pm = some e →
      ∃ t lon lat, pm.coordsText = some t ∧
        parse_float ((kml_tokens t).getD 0 "") = some lon ∧
        parse_float ((kml_tokens t).getD 1 "") = some lat ∧
        e.2 = ShapelyGeom.point lon lat) ∧
    (∀ e ∈ load_kml_geometries parse_float placemarks,
      ∃ lon lat, e.2 = ShapelyGeom.point lon lat) ∧
    (∀ e ∈ load_kml_geometries parse_float placemarks,
      ∀ (center_lat center_lon : ℝ) (size : ℝ × ℝ) (zoom : ℕ) (pad_px : ℤ),
        ∃ x0 y0 x1 y1,
          draw_geometry_on_mask e.2 center_lat center_lon size zoom pad_px =
            Except.ok [DrawCmd.ellipse x0 y0 x1 y1]) ∧
    (∀ pm : Placemark, pm.coordsText = none →
      parse_placemark parse_float pm = none) ∧
    (∀ (pm : Placemark) (t : String), pm.coordsText = some t →
      parse_float ((kml_tokens t).getD 0 "") = none →
      parse_placemark parse_float pm = none) := by
  have key : ∀ (pm : Placemark) (e : String × ShapelyGeom),
      parse_placemark parse_float pm = some e →
      ∃ t lon lat, pm.coordsText = some t ∧
        parse_float ((kml_tokens t).getD 0 "") = some lon ∧
        parse_float ((kml_tokens t).getD 1 "") = some lat ∧
        e.2 = ShapelyGeom.point lon lat := by
    intro pm e h
    rcases hct : pm.coordsText with _ | t
    · rw [parse_placemark, hct] at h
      simp at h
    · rw [parse_placemark, hct] at h
      dsimp only at h
      by_cases ht : t = ""
      · rw [if_pos ht] at h
        simp at h
      · rw [if_neg ht] at h
        by_cases hlen : (kml_tokens t).length < 2
        · rw [if_pos hlen] at h
          simp at h
        · rw [if_neg hlen] at h
          cases h0 : parse_float ((kml_tokens t).getD 0 "") with
          | none =>
            rw [h0] at h
            simp at h
          | some lon =>
            cases h1 : parse_float ((kml_tokens t).getD 1 "") with
            | none =>
              rw [h0, h1] at h
              simp at h
            | some lat =>
              rw [h0, h1] at h
              dsimp only at h
              refine ⟨t, lon, lat, rfl, h0, h1, ?_⟩
              rw [← Option.some.inj h]
  refine ⟨key, ?_, ?_, ?_, ?_⟩
  · intro e he
    rw [load_kml_geometries, List.mem_filterMap] at he
    obtain ⟨pm, _, hpm⟩ := he
    obtain ⟨t, lon, lat, _, _, _, hpt⟩ := key pm e hpm
    exact ⟨lon, lat, hpt⟩
  · intro e he center_lat center_lon size zoom pad_px
    rw [load_kml_geometries, List.mem_filterMap] at he
    obtain ⟨pm, _, hpm⟩ := he
    obtain ⟨t, lon, lat, _, _, _, hpt⟩ := key pm e hpm
    rw [hpt]
    exact ⟨_, _, _, _, rfl⟩
  · intro pm h
    rw [parse_placemark, h]
  · intro pm t hct h0
    rw [parse_placemark, hct]
    dsimp only
    by_cases ht : t = ""
    · rw [if_pos ht]
    · rw [if_neg ht]
      by_cases hlen : (kml_tokens t).length < 2
      · rw [if_pos hlen]
      · rw [if_neg hlen, h0]

/-- Witness for C10: a placemark with no coordinates element parses to
nothing. -/
theorem C10_witness :
    parse_placemark (fun _ => none) (Placemark.mk none none) = none :=
  (C10_loader_yields_only_points (fun _ => none) []).2.2.2.1
    (Placemark.mk none none) rfl

end GeoScraper
